import Mathlib

/-!
Verification of the hot-path core of the xzdp-go backend.

The definitions below are a shallow embedding of the Go/Lua source:

* `seckillScript` embeds `seckill.lua` (the admission script);
* `Seckill`, `createOrderTx`, `handleConsume`, `publishRetryOrDLQ`,
  `compensateRedis`, `retryBackoffSec` embed the voucher-order service;
* `nextIdStep` embeds `RedisIdWorker.NextId`;
* `fnv1a32`, `bloomOffsets`, `bloomAdd`, `bloomMightContain` embed the
  shop bloom filter;
* `getByID`, `loadShopAndCache`, `getByIDWithLogicalExpire`,
  `queryShopByID` embed the shop read paths (the variant of
  `shop_service.go` with the in-process cache, which is the one the
  line references point at).

External effects (Redis, MySQL, Kafka, the clock) are modelled by
explicit state records and by result parameters for the calls whose
outcome the control flow branches on.
-/

namespace XzdpGo

/-- The ephemeral per-voucher Redis state touched by `seckill.lua`:
the numeric value at `seckill:stock:vid:<id>` (`none` models a missing
key or a non-numeric value, both of which Lua's `tonumber` maps to
`nil`) and the member set at `order:vid:<id>`. -/
structure SeckillState where
  stock : Option Int
  orders : List Int
  deriving DecidableEq

/-- Redis `SADD`: insert the element if it is not already a member. -/
def sadd (x : Int) (l : List Int) : List Int :=
  if x ∈ l then l else x :: l

/-- Embeds `seckill.lua` (src/unnamed/part_010), executed atomically by Redis:
if the stock value is nil or ≤ 0 return 1; else if the user is already
in the order set return 2; else decrement the stock, add the user to
the order set and return 0. -/
def seckillScript (userId : Int) (st : SeckillState) : Int × SeckillState :=
  match st.stock with
  | none => (1, st)
  | some stock =>
    if stock ≤ 0 then (1, st)
    else if userId ∈ st.orders then (2, st)
    else (0, { stock := some (stock - 1), orders := sadd userId st.orders })

/-- Whether the stock value is present and strictly positive. -/
def stockPos (st : SeckillState) : Bool :=
  match st.stock with
  | none => false
  | some s => decide (0 < s)

/-- The stock value as a natural number (missing or negative count as 0). -/
def stockNat (st : SeckillState) : Nat :=
  (st.stock.getD 0).toNat

/-- Run a sequence of atomic script executions (one per listed user,
any interleaving of callers is some such sequence) and count the
executions that return 0. -/
def runSuccesses : List Int → SeckillState → Nat
  | [], _ => 0
  | u :: us, st =>
    match seckillScript u st with
    | (res, st') => (if res = 0 then 1 else 0) + runSuccesses us st'

/-- Same run, counting only the executions by `target` that return 0. -/
def runSuccessesOf (target : Int) : List Int → SeckillState → Nat
  | [], _ => 0
  | u :: us, st =>
    match seckillScript u st with
    | (res, st') =>
      (if u = target ∧ res = 0 then 1 else 0) + runSuccessesOf target us st'

/-! ### The reservation entrypoint `Seckill` (voucher_order_service) -/

instance {ε α : Type} [DecidableEq ε] [DecidableEq α] : DecidableEq (Except ε α) := fun x y =>
  match x, y with
  | .ok a, .ok b =>
    if h : a = b then isTrue (by rw [h]) else isFalse (by intro hc; cases hc; exact h rfl)
  | .error a, .error b =>
    if h : a = b then isTrue (by rw [h]) else isFalse (by intro hc; cases hc; exact h rfl)
  | .ok _, .error _ => isFalse (by intro hc; cases hc)
  | .error _, .ok _ => isFalse (by intro hc; cases hc)

/-- The row produced by the `tb_voucher ⋈ tb_seckill_voucher` lookup at
the top of `Seckill` (times in unix seconds, as compared by
`time.Before`/`time.After`). -/
structure VoucherInfo where
  status : Int
  beginTime : Int
  endTime : Int
  stock : Int
  deriving DecidableEq

/-- Environment of one `Seckill` call: the DB lookup result (`none`
models `gorm.ErrRecordNotFound`), the clock, the outcome of
`idWorker.NextId`, whether `writer.WriteMessages` succeeds, and the
two Redis keys touched by the admission script. -/
structure SeckillCtx where
  info : Option VoucherInfo
  now : Int
  nextId : Except String Int
  publishOk : Bool
  redis : SeckillState
  deriving DecidableEq

/-- Observable outcome of one `Seckill` call: the value returned to the
caller, the Redis state left behind, whether `idWorker.NextId` was
invoked, and whether the reservation message reached Kafka. -/
structure SeckillOut where
  result : Except String Int
  redis : SeckillState
  calledNextId : Bool
  published : Bool
  deriving DecidableEq

/-- Embeds `VoucherOrderService.Seckill`: precondition checks against the
persistent voucher row, then `NextId`, then the atomic admission
script; on script result 0 the order id is returned even when the
Kafka publish fails (the failure is only logged). -/
def Seckill (ctx : SeckillCtx) (userId : Int) : SeckillOut :=
  match ctx.info with
  | none => ⟨.error "优惠券不存在", ctx.redis, false, false⟩
  | some info =>
    if info.status ≠ 1 then ⟨.error "优惠券已下架或过期", ctx.redis, false, false⟩
    else if ctx.now < info.beginTime then ⟨.error "秒杀尚未开始", ctx.redis, false, false⟩
    else if info.endTime < ctx.now then ⟨.error "秒杀已结束", ctx.redis, false, false⟩
    else if info.stock ≤ 0 then ⟨.error "库存不足", ctx.redis, false, false⟩
    else
      match ctx.nextId with
      | .error e => ⟨.error e, ctx.redis, true, false⟩
      | .ok orderId =>
        match seckillScript userId ctx.redis with
        | (res, redis') =>
          if res = 0 then ⟨.ok orderId, redis', true, ctx.publishOk⟩
          else if res = 1 then ⟨.error "库存不足", redis', true, false⟩
          else if res = 2 then ⟨.error "每人限购一单", redis', true, false⟩
          else ⟨.error "秒杀失败", redis', true, false⟩

/-! ### The durable order pipeline (consumer side) -/

/-- The reservation message carried through Kafka. -/
structure OrderMessage where
  orderId : Int
  userId : Int
  voucherId : Int
  createdAt : Int
  retryCount : Int
  nextRetryAt : Int
  lastError : String
  deriving DecidableEq

/-- A `tb_voucher_order` row. -/
structure OrderRow where
  id : Int
  userId : Int
  voucherId : Int
  payType : Int
  status : Int
  createTime : Int
  updateTime : Int
  deriving DecidableEq

/-- The persistent store: order rows (primary key `id`) and the
`tb_seckill_voucher` stock column keyed by `voucher_id`. -/
structure DB where
  orders : List OrderRow
  seckillStock : List (Int × Int)
  deriving DecidableEq

/-- Whether an order row with the given primary key exists (the insert
raises MySQL error 1062 exactly in this case). -/
def hasOrder (db : DB) (oid : Int) : Bool :=
  db.orders.any fun r => r.id = oid

/-- Embeds `UPDATE tb_seckill_voucher SET stock = stock - 1 WHERE voucher_id = ?
AND stock > 0`: returns the updated rows and the affected-row count. -/
def decrStockWhere (rows : List (Int × Int)) (vid : Int) : List (Int × Int) × Nat :=
  match rows with
  | [] => ([], 0)
  | (v, s) :: rest =>
    match decrStockWhere rest vid with
    | (rest', n) =>
      if v = vid ∧ 0 < s then ((v, s - 1) :: rest', n + 1)
      else ((v, s) :: rest', n)

/-- Errors surfaced by `createOrderTx`: the non-retryable sentinel
`errDBStockNotEnough` or any other (transient) error. -/
inductive ConsumeErr where
  | dbStockNotEnough
  | generic (msg : String)
  deriving DecidableEq

/-- Embeds `isRetryableErr`: everything except `errDBStockNotEnough`. -/
def isRetryableErr : ConsumeErr → Bool
  | .dbStockNotEnough => false
  | .generic _ => true

/-- The text `err.Error()` yields for the modelled errors. -/
def errMessage : ConsumeErr → String
  | .dbStockNotEnough => "db stock not enough"
  | .generic m => m

/-- Embeds `createOrderTx`: one transaction that inserts the order row (a
duplicate primary key commits with no further work) and then
conditionally decrements persistent stock; zero affected rows raises
`errDBStockNotEnough` and rolls the whole transaction back. -/
def createOrderTx (db : DB) (p : OrderMessage) (now : Int) : Except ConsumeErr DB :=
  if hasOrder db p.orderId then .ok db
  else
    let row : OrderRow :=
      { id := p.orderId, userId := p.userId, voucherId := p.voucherId,
        payType := 1, status := 1, createTime := now, updateTime := now }
    let db1 : DB := { db with orders := row :: db.orders }
    match decrStockWhere db1.seckillStock p.voucherId with
    | (rows', n) =>
      if n = 0 then .error .dbStockNotEnough
      else .ok { db1 with seckillStock := rows' }

/-- Embeds `compensateRedis`: pipelined `INCR` of the stock key (a missing key
becomes 1) and `SREM` of the user from the order set. -/
def compensateRedis (st : SeckillState) (p : OrderMessage) : SeckillState :=
  { stock := some (st.stock.getD 0 + 1), orders := st.orders.erase p.userId }

/-- The constant `maxRetryCount` from the source. -/
def maxRetryCount : Int := 3

/-- Embeds `retryBackoff`, in whole seconds: exponential in the retry count,
capped at 30. (The int64-nanosecond overflow of the Go expression is
not modelled; the value is only ever used for retry counts ≤ 3.) -/
def retryBackoffSec (retryCount : Int) : Int :=
  if retryCount ≤ 0 then 1
  else min (2 ^ (retryCount - 1).toNat) 30

/-- Effects of one `publishRetryOrDLQ` call: whether `compensateRedis`
ran and the message (if any) written to the retry and dead-letter
topics. The Go function itself returns `errRetryEnqueued` on every
path in this model (publishes are taken to succeed). -/
structure RetryOut where
  compensated : Bool
  retryMsg : Option OrderMessage
  dlqMsg : Option OrderMessage
  deriving DecidableEq

/-- Embeds `publishRetryOrDLQ`: non-retryable errors compensate and republish
nothing; retryable errors bump `retryCount` and `lastError`, then either
set `nextRetryAt = now + backoff` and go to the retry topic (count ≤ 3)
or compensate and go to the dead-letter topic (count > 3). -/
def publishRetryOrDLQ (p : OrderMessage) (e : ConsumeErr) (now : Int) : RetryOut :=
  if !isRetryableErr e then
    { compensated := true, retryMsg := none, dlqMsg := none }
  else
    let p1 : OrderMessage := { p with retryCount := p.retryCount + 1, lastError := errMessage e }
    let backoff := retryBackoffSec p1.retryCount
    if p1.retryCount ≤ maxRetryCount then
      { compensated := false,
        retryMsg := some { p1 with nextRetryAt := now + backoff },
        dlqMsg := none }
    else
      { compensated := true, retryMsg := none, dlqMsg := some p1 }

/-- What `handleConsume` reports back to the consumer loop. -/
inductive ConsumeRes where
  | success
  | retryEnqueued
  deriving DecidableEq

/-- Combined effect of one `handleConsume` call on the store, the
ephemeral Redis state and the two republish topics. -/
structure ConsumeOut where
  db : DB
  redis : SeckillState
  retryMsg : Option OrderMessage
  dlqMsg : Option OrderMessage
  res : ConsumeRes
  deriving DecidableEq

/-- Apply the effects of `publishRetryOrDLQ` (the store is untouched:
the failed transaction rolled back). -/
def applyRetryOut (db : DB) (st : SeckillState) (p : OrderMessage) (r : RetryOut) : ConsumeOut :=
  { db := db,
    redis := if r.compensated then compensateRedis st p else st,
    retryMsg := r.retryMsg, dlqMsg := r.dlqMsg, res := .retryEnqueued }

/-- The core of `handleConsume` without the failure-injection toggles: run
`createOrderTx`; on error hand the message to `publishRetryOrDLQ`.
(The `nextRetryAt` gate only sleeps and is invisible to state.) -/
def handleConsumeCore (db : DB) (redis : SeckillState) (p : OrderMessage) (now : Int) : ConsumeOut :=
  match createOrderTx db p now with
  | .ok db' => { db := db', redis := redis, retryMsg := none, dlqMsg := none, res := .success }
  | .error e => applyRetryOut db redis p (publishRetryOrDLQ p e now)

/-- Embeds `handleConsume`: the `FORCE_SECKILL_FAIL_ONCE` /
`FORCE_SECKILL_FAIL_COUNT` toggles force a synthetic retryable failure,
otherwise the message is processed by `createOrderTx`. -/
def handleConsume (forceFailOnce : Bool) (forceFailCount : Option Int)
    (db : DB) (redis : SeckillState) (p : OrderMessage) (now : Int) : ConsumeOut :=
  if p.retryCount = 0 ∧ forceFailOnce then
    applyRetryOut db redis p
      (publishRetryOrDLQ p (.generic "forced consume failure for retry test") now)
  else
    match forceFailCount with
    | some n =>
      if 0 ≤ n ∧ p.retryCount < n then
        applyRetryOut db redis p
          (publishRetryOrDLQ p (.generic "forced consume failure for retry test (count)") now)
      else handleConsumeCore db redis p now
    | none => handleConsumeCore db redis p now

/-! ### The Redis-backed ID generator (`RedisIdWorker.NextId`) -/

/-- The constant `beginTimestamp` (2024-01-01 00:00:00 UTC, unix seconds). -/
def beginTimestamp : Int := 1704067200

/-- The constant `maxTimestamp`: the 31-bit bound on the seconds offset. -/
def maxTimestamp : Int := 2 ^ 31 - 1

/-- The constant `maxSequence`: the 32-bit bound on the per-day counter. -/
def maxSequence : Int := 2 ^ 32 - 1

/-- Inputs of one `NextId` call that the control flow branches on: the
clock, and whether the `EXPIRE` issued on a fresh counter succeeds. -/
structure NextIdCall where
  nowEpoch : Int
  expireOk : Bool
  deriving DecidableEq

/-- Embeds `RedisIdWorker.NextId` for a fixed key (one prefix on one calendar
day): compute the seconds offset, check its 31-bit bounds, atomically
`INCR` the shared per-day counter, set the expiry on a fresh counter,
check the 32-bit counter bound, and return
`(timestamp <<< 32) ||| count`. The counter is the shared Redis value;
`Nat` models the int64 counter (it is non-negative throughout). -/
def nextIdStep (c : NextIdCall) (counter : Nat) : Except String Nat × Nat :=
  if c.nowEpoch - beginTimestamp < 0 then
    (.error "timestamp is before beginTimestamp", counter)
  else if maxTimestamp < c.nowEpoch - beginTimestamp then
    (.error "timestamp overflow", counter)
  else if counter + 1 = 1 ∧ !c.expireOk then
    (.error "failed to set expiration for key", counter + 1)
  else if maxSequence < ((counter + 1 : Nat) : Int) then
    (.error "sequence overflow", counter + 1)
  else
    (.ok (((c.nowEpoch - beginTimestamp).toNat <<< 32) ||| (counter + 1)), counter + 1)

/-- Any interleaving of `NextId` calls against the same day's counter
is a sequence of atomic `nextIdStep`s threading the counter. -/
def runNextIds : List NextIdCall → Nat → List (Except String Nat)
  | [], _ => []
  | c :: cs, counter =>
    match nextIdStep c counter with
    | (r, counter') => r :: runNextIds cs counter'

/-- The ids actually handed out (the successful results). -/
def okResults (rs : List (Except String Nat)) : List Nat :=
  rs.filterMap fun r =>
    match r with
    | .ok v => some v
    | .error _ => none

/-! ### The shop bloom filter -/

/-- FNV-1a, 32 bit, over a byte sequence (`hash/fnv.New32a`). -/
def fnv1a32 (bytes : List Nat) : Nat :=
  bytes.foldl (fun h b => ((h ^^^ b) * 16777619) % 2 ^ 32) 2166136261

/-- The bytes of `strconv.FormatInt(id, 10)` (ASCII decimal, with a
leading minus sign for negative ids). -/
def decimalBytes (id : Int) : List Nat :=
  (toString id).toList.map Char.toNat

/-- The constant `shopBloomSize = 1 << 20`. -/
def shopBloomSize : Nat := 2 ^ 20

/-- The constant list `shopBloomSeeds`. -/
def shopBloomSeeds : List Nat := [17, 29, 37]

/-- Embeds `bloomOffsets`: for each seed, `h.Sum32() + seed` (uint32 wrap-around
addition) modulo the bitmap size. -/
def bloomOffsets (id : Int) : List Nat :=
  shopBloomSeeds.map fun seed =>
    ((fnv1a32 (decimalBytes id) + seed) % 2 ^ 32) % shopBloomSize

/-- Embeds `bloomAdd`: pipelined `SETBIT .. 1` on every offset of the id. -/
def bloomAdd (bm : Nat → Bool) (id : Int) : Nat → Bool :=
  fun off => bm off || decide (off ∈ bloomOffsets id)

/-- Embeds `bloomMightContain`: `GETBIT` every offset, false on the first zero
bit. -/
def bloomMightContain (bm : Nat → Bool) (id : Int) : Bool :=
  (bloomOffsets id).all bm

/-! ### The two-tier shop cache (the `shop_service.go` variant with the
in-process cache, which the claims' line references point at) -/

/-- A shop row (only the fields the cache logic inspects are kept; the
JSON behaviour below is insensitive to the remaining columns). -/
structure Shop where
  id : Int
  name : String
  deriving DecidableEq

/-- The Go zero value of `Shop`, produced when JSON decoding finds no
matching fields (or decodes `null`). -/
def shopZero : Shop := { id := 0, name := "" }

/-- The strings that occur at a `cache:shop:<id>` key: the empty string,
plain shop JSON (mutex flow format), or a logical-expiry
`RedisData` envelope. -/
inductive CacheVal where
  | emptyStr
  | shopJson (s : Shop)
  | envelope (expireAt : Int) (s : Shop)
  deriving DecidableEq

/-- An L2 (Redis) entry together with the TTL (minutes) it was written
with; 0 means no Redis expiry. -/
structure L2Entry where
  val : CacheVal
  ttlMin : Int
  deriving DecidableEq

/-- State for the shop read paths of one id: the in-process cache entry,
the Redis entry, and the authoritative row. -/
structure ShopState where
  l1 : Option CacheVal
  l2 : Option L2Entry
  db : Option Shop
  deriving DecidableEq

/-- The constant `utils.CACHE_SHOP_TTL` (minutes). -/
def CACHE_SHOP_TTL : Int := 30

/-- The constant `utils.CACHE_NULL_TTL` (minutes). -/
def CACHE_NULL_TTL : Int := 2

/-- Errors of the mutex-flow read path. -/
inductive GetErr where
  | notFound
  | unmarshal
  deriving DecidableEq

/-- Behaviour of `json.Unmarshal` on a cached string decoded into `model.Shop`:
the empty string fails (unexpected end of JSON input); shop JSON
round-trips; envelope JSON succeeds with no matching top-level fields,
leaving the zero `Shop`. -/
def unmarshalShop : CacheVal → Except GetErr Shop
  | .emptyStr => .error .unmarshal
  | .shopJson s => .ok s
  | .envelope _ _ => .ok shopZero

/-- Outcome of a mutex-flow read: the returned value, the state left
behind, and whether the authoritative store was queried. -/
structure GetOut where
  result : Except GetErr Shop
  state : ShopState
  dbRead : Bool
  deriving DecidableEq

/-- Embeds `loadShopAndCache` (the variant the claims cite): read the
authoritative row; a missing row returns the not-found error and
writes nothing to L2; otherwise serialize, write to L2 with the
normal TTL and populate L1. -/
def loadShopAndCache (st : ShopState) : GetOut :=
  match st.db with
  | none => { result := .error .notFound, state := st, dbRead := true }
  | some shop =>
    { result := .ok shop,
      state := { st with
                 l2 := some { val := .shopJson shop, ttlMin := CACHE_SHOP_TTL },
                 l1 := some (.shopJson shop) },
      dbRead := true }

/-- Embeds `getLocalShop`: consult the in-process cache; an entry that fails
to decode is deleted and treated as a miss. -/
def getLocalShop (st : ShopState) : Option Shop × ShopState :=
  match st.l1 with
  | none => (none, st)
  | some v =>
    match unmarshalShop v with
    | .ok s => (some s, st)
    | .error _ => (none, { st with l1 := none })

/-- Embeds `GetByID` (mutex flow) in the single-actor model: the per-id mutex
is acquired on the first try and no concurrent writer races the
double-check, so the retry loop runs exactly one iteration: L1, then
L2, then (under the lock, after an unchanged double-check)
`loadShopAndCache`. -/
def getByID (st0 : ShopState) : GetOut :=
  match getLocalShop st0 with
  | (some s, st) => { result := .ok s, state := st, dbRead := false }
  | (none, st) =>
    match st.l2 with
    | some entry =>
      match unmarshalShop entry.val with
      | .ok s => { result := .ok s, state := { st with l1 := some entry.val }, dbRead := false }
      | .error e => { result := .error e, state := st, dbRead := false }
    | none => loadShopAndCache st

/-- Outcome of a logical-expiry read (`nil, nil` is `.ok none`). -/
structure LogicalOut where
  result : Except GetErr (Option Shop)
  state : ShopState
  dbRead : Bool
  deriving DecidableEq

/-- Behaviour of `json.Unmarshal` on a cached string decoded into the `RedisData` envelope,
followed by re-marshalling `Data` and decoding it as a `Shop`:
an envelope recovers its expiry and shop; plain shop JSON has no
matching top-level fields, so the expiry is the zero time (always in
the past) and the shop decodes from `null` to the zero value. The
empty string is unreachable here (guarded earlier). -/
def parseRedisData : CacheVal → Int × Shop
  | .envelope t s => (t, s)
  | .shopJson _ => (0, shopZero)
  | .emptyStr => (0, shopZero)

/-- Embeds `rebuildShopCacheWithLogicalExpire`: re-read the row (a missing row
is a silent no-op) and overwrite the key with a fresh envelope, no
Redis TTL. -/
def rebuildShopCacheWithLogicalExpire (st : ShopState) (now : Int) : ShopState :=
  match st.db with
  | none => st
  | some shop =>
    { st with l2 := some { val := .envelope (now + CACHE_SHOP_TTL * 60) shop, ttlMin := 0 } }

/-- Embeds `GetByIDWithLogicalExpire`: a missing key or the empty string
returns `(nil, nil)` with no store access; otherwise parse the
envelope, serve fresh data directly, and on logical expiry serve the
stale data while the (here synchronously modelled) detached task
rebuilds the entry. Lock acquisition succeeds in the single-actor
model. -/
def getByIDWithLogicalExpire (st : ShopState) (now : Int) : LogicalOut :=
  match st.l2 with
  | none => { result := .ok none, state := st, dbRead := false }
  | some entry =>
    match entry.val with
    | .emptyStr => { result := .ok none, state := st, dbRead := false }
    | v =>
      match parseRedisData v with
      | (expireAt, shop) =>
        if now < expireAt then
          { result := .ok (some shop), state := st, dbRead := false }
        else
          { result := .ok (some shop),
            state := rebuildShopCacheWithLogicalExpire st now,
            dbRead := true }

/-- The HTTP-level outcomes of the shop-by-id endpoint. -/
inductive HttpResp where
  | okData (data : Option Shop)
  | serverError (e : GetErr)
  deriving DecidableEq

/-- Embeds `ShopHandler.QueryShopByID` (src/unnamed/part_007): the public
shop-by-id endpoint delegates to `GetByIDWithLogicalExpire` and wraps
the result (a `nil` shop is serialized as a 200 with null data). -/
def queryShopByID (st : ShopState) (now : Int) : HttpResp :=
  match (getByIDWithLogicalExpire st now).result with
  | .error e => .serverError e
  | .ok shopOpt => .okData shopOpt

/-! ## Lemmas about the admission script -/

theorem sadd_mem_self (x : Int) (l : List Int) : x ∈ sadd x l := by
  unfold sadd
  split
  · assumption
  · exact List.mem_cons_self x l

theorem sadd_mem_of_mem {w : Int} (x : Int) {l : List Int} (h : w ∈ l) : w ∈ sadd x l := by
  unfold sadd
  split
  · exact h
  · exact List.mem_cons_of_mem x h

/-- Script executions never remove a user from the order set. -/
theorem seckillScript_orders_mono {w : Int} (u : Int) (st : SeckillState)
    (h : w ∈ st.orders) : w ∈ (seckillScript u st).2.orders := by
  cases hstock : st.stock with
  | none => simpa [seckillScript, hstock] using h
  | some s =>
    by_cases hs : s ≤ 0
    · simpa [seckillScript, hstock, hs] using h
    · by_cases hu : u ∈ st.orders
      · simpa [seckillScript, hstock, hs, hu] using h
      · simp [seckillScript, hstock, hs, hu]
        exact sadd_mem_of_mem u h

/-- A successful execution records the user in the order set. -/
theorem seckillScript_success_mem (u : Int) (st : SeckillState)
    (h : (seckillScript u st).1 = 0) : u ∈ (seckillScript u st).2.orders := by
  cases hstock : st.stock with
  | none => simp [seckillScript, hstock] at h
  | some s =>
    by_cases hs : s ≤ 0
    · simp [seckillScript, hstock, hs] at h
    · by_cases hu : u ∈ st.orders
      · simp [seckillScript, hstock, hs, hu] at h
      · simp [seckillScript, hstock, hs, hu]
        exact sadd_mem_self u st.orders

/-- A user already in the order set is rejected: with positive stock the
script answers 2 (already ordered), with exhausted stock it answers 1
(sold out) — the stock check precedes the membership check. -/
theorem seckillScript_repeat_rejected (u : Int) (st : SeckillState)
    (h : u ∈ st.orders) :
    (seckillScript u st).1 = if stockPos st then 2 else 1 := by
  cases hstock : st.stock with
  | none => simp [seckillScript, stockPos, hstock]
  | some s =>
    by_cases hs : s ≤ 0
    · have hpos : ¬ (0 < s) := by omega
      simp [seckillScript, stockPos, hstock, hs, hpos]
    · have hpos : 0 < s := by omega
      simp [seckillScript, stockPos, hstock, hs, h, hpos]

/-- Successful admissions cannot outnumber the initial stock value. -/
theorem runSuccesses_le (us : List Int) :
    ∀ st : SeckillState, runSuccesses us st ≤ stockNat st := by
  induction us with
  | nil => intro st; simp [runSuccesses]
  | cons u us ih =>
    intro st
    cases hstock : st.stock with
    | none =>
      simpa [runSuccesses, seckillScript, hstock] using ih st
    | some s =>
      by_cases hs : s ≤ 0
      · simpa [runSuccesses, seckillScript, hstock, hs] using ih st
      · by_cases hu : u ∈ st.orders
        · simpa [runSuccesses, seckillScript, hstock, hs, hu] using ih st
        · have h2 := ih { stock := some (s - 1), orders := sadd u st.orders }
          simp [runSuccesses, seckillScript, hstock, hs, hu, stockNat] at h2 ⊢
          omega

/-- A user already in the order set can never be admitted again. -/
theorem runSuccessesOf_zero (us : List Int) :
    ∀ (st : SeckillState) (u : Int), u ∈ st.orders → runSuccessesOf u us st = 0 := by
  induction us with
  | nil => intro st u _; rfl
  | cons v vs ih =>
    intro st u h
    have hmono := seckillScript_orders_mono v st h
    rcases hsc : seckillScript v st with ⟨res, st'⟩
    rw [hsc] at hmono
    have htail : runSuccessesOf u vs st' = 0 := ih st' u hmono
    by_cases hvu : v = u
    · subst hvu
      have hrej := seckillScript_repeat_rejected v st h
      rw [hsc] at hrej
      have hres : ¬ res = 0 := by
        intro h0
        rw [h0] at hrej
        split at hrej <;> omega
      simp [runSuccessesOf, hsc, hres, htail]
    · simp [runSuccessesOf, hsc, hvu, htail]

/-- At most one execution in any sequence admits a given user. -/
theorem runSuccessesOf_le_one (us : List Int) :
    ∀ (st : SeckillState) (u : Int), runSuccessesOf u us st ≤ 1 := by
  induction us with
  | nil => intro st u; simp [runSuccessesOf]
  | cons v vs ih =>
    intro st u
    rcases hsc : seckillScript v st with ⟨res, st'⟩
    by_cases hvu : v = u
    · subst hvu
      by_cases hres : res = 0
      · have hmem : v ∈ st'.orders := by
          have := seckillScript_success_mem v st (by rw [hsc]; exact hres)
          rw [hsc] at this
          exact this
        have htail := runSuccessesOf_zero vs st' v hmem
        simp [runSuccessesOf, hsc, hres, htail]
      · simpa [runSuccessesOf, hsc, hres] using ih st' v
    · simpa [runSuccessesOf, hsc, hvu] using ih st' u

/-! ## Lemmas about the `Seckill` entrypoint -/

/-- A successful `Seckill` returns exactly the id produced by `NextId`,
and only after the admission script reported 0. -/
theorem Seckill_ok_script (ctx : SeckillCtx) (u n : Int)
    (h : (Seckill ctx u).result = .ok n) :
    ctx.nextId = .ok n ∧ (seckillScript u ctx.redis).1 = 0 := by
  cases hinfo : ctx.info with
  | none => simp [Seckill, hinfo] at h
  | some info =>
    by_cases h1 : info.status ≠ 1
    · simp [Seckill, hinfo, h1] at h
    · by_cases h2 : ctx.now < info.beginTime
      · simp [Seckill, hinfo, h1, h2] at h
      · by_cases h3 : info.endTime < ctx.now
        · simp [Seckill, hinfo, h1, h2, h3] at h
        · by_cases h4 : info.stock ≤ 0
          · simp [Seckill, hinfo, h1, h2, h3, h4] at h
          · cases hid : ctx.nextId with
            | error e => simp [Seckill, hinfo, h1, h2, h3, h4, hid] at h
            | ok oid =>
              rcases hsc : seckillScript u ctx.redis with ⟨res, redis'⟩
              by_cases hres : res = 0
              · simp [Seckill, hinfo, h1, h2, h3, h4, hid, hsc, hres] at h
                subst h
                exact ⟨rfl, hres⟩
              · by_cases hres1 : res = 1
                · simp [Seckill, hinfo, h1, h2, h3, h4, hid, hsc, hres, hres1] at h
                · by_cases hres2 : res = 2
                  · simp [Seckill, hinfo, h1, h2, h3, h4, hid, hsc, hres, hres1, hres2] at h
                  · simp [Seckill, hinfo, h1, h2, h3, h4, hid, hsc, hres, hres1, hres2] at h

/-! ## Sample inputs used by the concrete witnesses -/

/-- A voucher that is active, inside its window at `now = 5`, and with
persistent stock 5. -/
def sampleInfo : VoucherInfo := { status := 1, beginTime := 0, endTime := 10, stock := 5 }

/-- A context in which the admission script succeeds but the Kafka
publish fails. -/
def ctxScriptOk : SeckillCtx :=
  { info := some sampleInfo, now := 5, nextId := .ok 42, publishOk := false,
    redis := { stock := some 3, orders := [] } }

/-- A context in which every persistent precondition passes but the
ephemeral stock counter is already 0. -/
def ctxSoldOut : SeckillCtx :=
  { info := some sampleInfo, now := 5, nextId := .ok 42, publishOk := true,
    redis := { stock := some 0, orders := [] } }

/-! ## Claim theorems -/

/-- C1: for a voucher whose ephemeral stock counter starts at `S ≥ 0`,
any sequence of atomic admission-script executions (any users, any
interleaving) contains at most `S` executions that return 0. -/
theorem c1_admissions_bounded_by_stock (S : Nat) (users : List Int) :
    runSuccesses users { stock := some (S : Int), orders := [] } ≤ S := by
  have h := runSuccesses_le users { stock := some (S : Int), orders := [] }
  simpa [stockNat] using h

/-- C2 counterexample: with initial stock 1, user 7 is admitted once and
the second attempt by user 7 returns script result 1 (sold out), not 2
(already ordered) — the stock check precedes the membership check. -/
theorem c2_later_attempt_counterexample :
    (seckillScript 7 { stock := some 1, orders := [] }).1 = 0 ∧
    (seckillScript 7 (seckillScript 7 { stock := some 1, orders := [] }).2).1 = 1 ∧
    ¬ (seckillScript 7 (seckillScript 7 { stock := some 1, orders := [] }).2).1 = 2 := by
  decide

/-- C2 (amended): in any sequence of admission-script executions at most
one execution with a given userId returns 0; a Seckill call returns
success only when the script reports 0; and a later attempt by an
already-recorded user is rejected — with result 2 while the stock
counter is positive, and with result 1 once it is exhausted. -/
theorem c2_at_most_one_admission (u : Int) (users : List Int) (st : SeckillState)
    (ctx : SeckillCtx) (n : Int) :
    runSuccessesOf u users st ≤ 1 ∧
    (u ∈ st.orders → (seckillScript u st).1 = if stockPos st then 2 else 1) ∧
    ((Seckill ctx u).result = .ok n → (seckillScript u ctx.redis).1 = 0) :=
  ⟨runSuccessesOf_le_one users st u,
   fun h => seckillScript_repeat_rejected u st h,
   fun h => (Seckill_ok_script ctx u n h).2⟩

/-- Witness for C2 (amended) at concrete inputs. -/
theorem c2_at_most_one_admission_witness :
    runSuccessesOf 7 [7, 7] { stock := some 5, orders := [] } ≤ 1 ∧
    (seckillScript 7 { stock := some 5, orders := [7] }).1 =
      (if stockPos { stock := some 5, orders := [7] } then 2 else 1) ∧
    (seckillScript 7 ctxScriptOk.redis).1 = 0 :=
  ⟨(c2_at_most_one_admission 7 [7, 7] { stock := some 5, orders := [] } ctxScriptOk 42).1,
   (c2_at_most_one_admission 7 [] { stock := some 5, orders := [7] } ctxScriptOk 42).2.1
     (by decide),
   (c2_at_most_one_admission 7 [] { stock := some 5, orders := [] } ctxScriptOk 42).2.2
     (by decide)⟩

/-- C5: when every precondition passes and the admission script reports
0, `Seckill` returns the allocated orderId with no error regardless of
whether the Kafka publish succeeds — the failure is only logged. -/
theorem c5_publish_failure_still_succeeds (ctx : SeckillCtx) (userId oid : Int)
    (info : VoucherInfo) (hinfo : ctx.info = some info) (hstatus : info.status = 1)
    (hbegin : ¬ ctx.now < info.beginTime) (hend : ¬ info.endTime < ctx.now)
    (hstock : ¬ info.stock ≤ 0) (hid : ctx.nextId = .ok oid)
    (hscript : (seckillScript userId ctx.redis).1 = 0) :
    (Seckill ctx userId).result = .ok oid ∧
    (Seckill ctx userId).published = ctx.publishOk := by
  rcases hsc : seckillScript userId ctx.redis with ⟨res, redis'⟩
  rw [hsc] at hscript
  simp at hscript
  simp [Seckill, hinfo, hstatus, hbegin, hend, hstock, hid, hsc, hscript]

/-- Witness for C5: a concrete call whose publish fails
(`publishOk = false`) still returns `ok 42`. -/
theorem c5_publish_failure_still_succeeds_witness :
    (Seckill ctxScriptOk 7).result = .ok 42 ∧
    (Seckill ctxScriptOk 7).published = ctxScriptOk.publishOk :=
  c5_publish_failure_still_succeeds ctxScriptOk 7 42 sampleInfo rfl rfl
    (by decide) (by decide) (by decide) rfl (by decide)

/-- C6 counterexample: a call whose persistent preconditions pass but
whose admission is rejected by the script as sold out (result 1) has
nevertheless already invoked the id generator. -/
theorem c6_rejected_allocates_id_counterexample :
    (Seckill ctxSoldOut 7).result = .error "库存不足" ∧
    (Seckill ctxSoldOut 7).calledNextId = true := by
  decide

/-- C6 (amended): the orderId returned by a successful `Seckill` is the
one obtained from the ID generator and success implies script result 0;
but the generator is invoked before the script runs, on every attempt
that passes the persistent precondition checks — including attempts the
script then rejects as sold-out or already-ordered. -/
theorem c6_id_allocation (ctx : SeckillCtx) (u n : Int) (info : VoucherInfo) :
    ((Seckill ctx u).result = .ok n →
      ctx.nextId = .ok n ∧ (seckillScript u ctx.redis).1 = 0) ∧
    (ctx.info = some info → info.status = 1 → ¬ ctx.now < info.beginTime →
      ¬ info.endTime < ctx.now → ¬ info.stock ≤ 0 →
      (Seckill ctx u).calledNextId = true) := by
  refine ⟨fun h => Seckill_ok_script ctx u n h,
          fun hinfo hstatus hbegin hend hstock => ?_⟩
  cases hid : ctx.nextId with
  | error e => simp [Seckill, hinfo, hstatus, hbegin, hend, hstock, hid]
  | ok oid =>
    rcases hsc : seckillScript u ctx.redis with ⟨res, redis'⟩
    by_cases h0 : res = 0
    · simp [Seckill, hinfo, hstatus, hbegin, hend, hstock, hid, hsc, h0]
    · by_cases hr1 : res = 1
      · simp [Seckill, hinfo, hstatus, hbegin, hend, hstock, hid, hsc, h0, hr1]
      · by_cases hr2 : res = 2
        · simp [Seckill, hinfo, hstatus, hbegin, hend, hstock, hid, hsc, h0, hr1, hr2]
        · simp [Seckill, hinfo, hstatus, hbegin, hend, hstock, hid, hsc, h0, hr1, hr2]

/-- Witness for C6 (amended) at concrete inputs. -/
theorem c6_id_allocation_witness :
    (ctxScriptOk.nextId = .ok 42 ∧ (seckillScript 7 ctxScriptOk.redis).1 = 0) ∧
    (Seckill ctxSoldOut 7).calledNextId = true :=
  ⟨(c6_id_allocation ctxScriptOk 7 42 sampleInfo).1 (by decide),
   (c6_id_allocation ctxSoldOut 7 42 sampleInfo).2 rfl rfl
     (by decide) (by decide) (by decide)⟩

/-! ## C3 / C4: consumer pipeline -/

/-- A pre-existing order row. -/
def sampleRow : OrderRow :=
  { id := 5, userId := 1, voucherId := 9, payType := 1, status := 1,
    createTime := 0, updateTime := 0 }

/-- A store that already holds `sampleRow`. -/
def sampleDB : DB := { orders := [sampleRow], seckillStock := [(9, 10)] }

/-- A reservation message whose orderId already has a row in `sampleDB`. -/
def sampleMsg : OrderMessage :=
  { orderId := 5, userId := 1, voucherId := 9, createdAt := 0,
    retryCount := 0, nextRetryAt := 0, lastError := "" }

/-- C3: `createOrderTx` is idempotent on the order primary key — when a
row with the message's orderId already exists, it returns success with
the store unchanged (no second row, no persistent-stock decrement), and
feeding such a message through the consumer yields no error and no
republish. -/
theorem c3_createOrderTx_idempotent (db : DB) (redis : SeckillState)
    (p : OrderMessage) (now : Int) (h : hasOrder db p.orderId = true) :
    createOrderTx db p now = .ok db ∧
    handleConsume false none db redis p now =
      { db := db, redis := redis, retryMsg := none, dlqMsg := none, res := .success } := by
  have h1 : createOrderTx db p now = .ok db := by simp [createOrderTx, h]
  exact ⟨h1, by simp [handleConsume, handleConsumeCore, h1]⟩

/-- Witness for C3 at a concrete store and message. -/
theorem c3_createOrderTx_idempotent_witness :
    createOrderTx sampleDB sampleMsg 7 = .ok sampleDB ∧
    handleConsume false none sampleDB { stock := some 2, orders := [1] } sampleMsg 7 =
      { db := sampleDB, redis := { stock := some 2, orders := [1] },
        retryMsg := none, dlqMsg := none, res := .success } :=
  c3_createOrderTx_idempotent sampleDB { stock := some 2, orders := [1] } sampleMsg 7
    (by decide)

/-- C4: `publishRetryOrDLQ` on a non-retryable error compensates and
republishes nothing; on a retryable error it increments the retry
count, records the error text, and either (count ≤ 3) sets
`nextRetryAt = now + min(2^(count−1) s, 30 s)` and publishes to the
retry channel, or (count > 3) compensates and publishes to the
dead-letter channel. -/
theorem c4_publishRetryOrDLQ_spec (p : OrderMessage) (e : ConsumeErr) (now : Int) :
    (isRetryableErr e = false →
      publishRetryOrDLQ p e now =
        { compensated := true, retryMsg := none, dlqMsg := none }) ∧
    (isRetryableErr e = true → 0 ≤ p.retryCount → p.retryCount + 1 ≤ 3 →
      publishRetryOrDLQ p e now =
        { compensated := false,
          retryMsg := some { p with
                             retryCount := p.retryCount + 1,
                             lastError := errMessage e,
                             nextRetryAt := now + min ((2 : Int) ^ p.retryCount.toNat) 30 },
          dlqMsg := none }) ∧
    (isRetryableErr e = true → 3 < p.retryCount + 1 →
      publishRetryOrDLQ p e now =
        { compensated := true, retryMsg := none,
          dlqMsg := some { p with
                           retryCount := p.retryCount + 1,
                           lastError := errMessage e } }) := by
  refine ⟨fun hret => ?_, fun hret h0 hle => ?_, fun hret hgt => ?_⟩
  · simp [publishRetryOrDLQ, hret]
  · have hb : retryBackoffSec (p.retryCount + 1) = min ((2 : Int) ^ p.retryCount.toNat) 30 := by
      unfold retryBackoffSec
      have hpos : ¬ (p.retryCount + 1 ≤ 0) := by omega
      simp [hpos, Int.add_sub_cancel]
    have hle' : p.retryCount + 1 ≤ maxRetryCount := by
      unfold maxRetryCount; omega
    simp [publishRetryOrDLQ, hret, hle', hb]
  · have hnle : ¬ (p.retryCount + 1 ≤ maxRetryCount) := by
      unfold maxRetryCount; omega
    simp [publishRetryOrDLQ, hret, hnle]

/-- Witness for C4: the three branches at concrete messages. -/
theorem c4_publishRetryOrDLQ_spec_witness :
    publishRetryOrDLQ sampleMsg .dbStockNotEnough 100 =
      { compensated := true, retryMsg := none, dlqMsg := none } ∧
    publishRetryOrDLQ sampleMsg (.generic "io") 100 =
      { compensated := false,
        retryMsg := some { sampleMsg with
                           retryCount := 1, lastError := "io", nextRetryAt := 101 },
        dlqMsg := none } ∧
    publishRetryOrDLQ { sampleMsg with retryCount := 3 } (.generic "io") 100 =
      { compensated := true, retryMsg := none,
        dlqMsg := some { sampleMsg with retryCount := 4, lastError := "io" } } := by
  refine ⟨(c4_publishRetryOrDLQ_spec sampleMsg .dbStockNotEnough 100).1 rfl, ?_, ?_⟩
  · have h := (c4_publishRetryOrDLQ_spec sampleMsg (.generic "io") 100).2.1 rfl
      (by decide) (by decide)
    rw [h]; decide
  · have h := (c4_publishRetryOrDLQ_spec { sampleMsg with retryCount := 3 }
      (.generic "io") 100).2.2 rfl (by decide)
    rw [h]; decide

/-! ## C7: distinctness of generated ids -/

theorem okResults_cons_ok (v : Nat) (rs : List (Except String Nat)) :
    okResults (.ok v :: rs) = v :: okResults rs := rfl

theorem okResults_cons_error (e : String) (rs : List (Except String Nat)) :
    okResults (.error e :: rs) = okResults rs := rfl

/-- The low 32 bits of `(a <<< 32) ||| b` are `b` when `b < 2^32`. -/
theorem lor_shift_mod (a b : Nat) (hb : b < 2 ^ 32) :
    ((a <<< 32) ||| b) % 2 ^ 32 = b := by
  apply Nat.eq_of_testBit_eq
  intro i
  rw [Nat.testBit_mod_two_pow, Nat.testBit_or, Nat.testBit_shiftLeft]
  by_cases h : i < 32
  · have h32 : ¬ (32 ≤ i) := by omega
    simp [h, h32]
  · have h32 : 32 ≤ i := by omega
    have hbf : b.testBit i = false :=
      Nat.testBit_lt_two_pow (lt_of_lt_of_le hb (Nat.pow_le_pow_right (by norm_num) h32))
    simp [h, h32, hbf]

/-- A successful `nextIdStep` hands out the freshly incremented counter
in its low 32 bits. -/
theorem nextIdStep_ok (c : NextIdCall) (k k' : Nat) (id : Nat)
    (h : nextIdStep c k = (.ok id, k')) :
    id % 2 ^ 32 = k + 1 ∧ k' = k + 1 := by
  unfold nextIdStep at h
  split at h
  · simp at h
  · split at h
    · simp at h
    · split at h
      · simp at h
      · split at h
        · simp at h
        · rename maxSequence < ((k + 1 : Nat) : Int) → False => h4
          simp at h
          have hlt : k + 1 < 2 ^ 32 := by
            unfold maxSequence at h4
            have hval : ((2 : Int) ^ 32 - 1) = 4294967295 := by norm_num
            rw [hval] at h4
            have h32 : (2 : Nat) ^ 32 = 4294967296 := by norm_num
            push_cast at h4
            omega
          obtain ⟨hid, hk⟩ := h
          exact ⟨by rw [← hid]; exact lor_shift_mod _ _ hlt, hk.symm⟩

/-- The step `nextIdStep` never decreases the shared counter. -/
theorem nextIdStep_counter (c : NextIdCall) (k k' : Nat) (r : Except String Nat)
    (h : nextIdStep c k = (r, k')) : k ≤ k' := by
  unfold nextIdStep at h
  split at h
  · simp at h; omega
  · split at h
    · simp at h; omega
    · split at h
      · simp at h; omega
      · split at h
        · simp at h; omega
        · simp at h; omega

/-- Every id handed out after the counter reached `k` has low 32 bits
strictly above `k`. -/
theorem okResults_low_gt (cs : List NextIdCall) :
    ∀ (k : Nat) (id : Nat), id ∈ okResults (runNextIds cs k) → k < id % 2 ^ 32 := by
  induction cs with
  | nil => intro k id h; simp [runNextIds, okResults] at h
  | cons c cs ih =>
    intro k id h
    rcases hstep : nextIdStep c k with ⟨r, k'⟩
    cases r with
    | error e =>
      rw [show runNextIds (c :: cs) k = Except.error e :: runNextIds cs k' from
        by simp [runNextIds, hstep]] at h
      rw [okResults_cons_error] at h
      exact lt_of_le_of_lt (nextIdStep_counter c k k' _ hstep) (ih k' id h)
    | ok v =>
      obtain ⟨hmod, hk⟩ := nextIdStep_ok c k k' v hstep
      rw [show runNextIds (c :: cs) k = Except.ok v :: runNextIds cs k' from
        by simp [runNextIds, hstep]] at h
      rw [okResults_cons_ok] at h
      rcases List.mem_cons.mp h with hv | htail
      · subst hv; omega
      · have := ih k' id htail
        omega

/-- All ids handed out in one day (one shared counter) are pairwise
distinct. -/
theorem nextId_ok_pairwise (cs : List NextIdCall) :
    ∀ k : Nat, (okResults (runNextIds cs k)).Pairwise (· ≠ ·) := by
  induction cs with
  | nil => intro k; simp [runNextIds, okResults]
  | cons c cs ih =>
    intro k
    rcases hstep : nextIdStep c k with ⟨r, k'⟩
    cases r with
    | error e =>
      rw [show runNextIds (c :: cs) k = Except.error e :: runNextIds cs k' from
        by simp [runNextIds, hstep]]
      rw [okResults_cons_error]
      exact ih k'
    | ok v =>
      obtain ⟨hmod, hk⟩ := nextIdStep_ok c k k' v hstep
      rw [show runNextIds (c :: cs) k = Except.ok v :: runNextIds cs k' from
        by simp [runNextIds, hstep]]
      rw [okResults_cons_ok]
      refine List.Pairwise.cons ?_ (ih k')
      intro b hb hvb
      have hlow := okResults_low_gt cs k' b hb
      rw [← hvb] at hlow
      omega

/-- C7: any number of `NextId` calls against the same key prefix on the
same calendar day share one atomically incremented counter, and all the
ids they are handed are pairwise distinct (each id carries a fresh
counter value in its low 32 bits, and the generator rejects counters
beyond `2^32 − 1`). -/
theorem c7_same_day_ids_distinct (calls : List NextIdCall) (c0 : Nat) :
    (okResults (runNextIds calls c0)).Pairwise (· ≠ ·) :=
  nextId_ok_pairwise calls c0

/-! ## C8: bloom filter persistence -/

/-- C8: after `bloomAdd id` completes, every bitmap that still has all
the bits `bloomAdd` set (i.e. no bit was cleared by a rebuild) makes
`bloomMightContain id` return true — the three checked offsets are
exactly the three set offsets. -/
theorem c8_bloom_add_persists (bm bm' : Nat → Bool) (id : Int)
    (h : ∀ o, bloomAdd bm id o = true → bm' o = true) :
    bloomMightContain bm' id = true := by
  unfold bloomMightContain
  rw [List.all_eq_true]
  intro o ho
  apply h
  unfold bloomAdd
  simp [ho]

/-- Witness for C8: adding id 1 to the empty bitmap and not clearing
anything makes the membership probe answer true. -/
theorem c8_bloom_add_persists_witness :
    (∀ o, bloomAdd (fun _ => false) 1 o = true → bloomAdd (fun _ => false) 1 o = true) ∧
    bloomMightContain (bloomAdd (fun _ => false) 1) 1 = true :=
  ⟨fun _ h => h,
   c8_bloom_add_persists (fun _ => false) (bloomAdd (fun _ => false) 1) 1 (fun _ h => h)⟩

/-! ## C9 / C10: shop cache read paths -/

/-- C9 counterexample: in the cited variant the loader does not write
the empty sentinel on a missing row (L2 stays empty), and a read that
hits the empty string fails with a deserialization error rather than
not-found. -/
theorem c9_no_sentinel_counterexample :
    (getByID { l1 := none, l2 := none, db := none }).state.l2 = none ∧
    (getByID { l1 := none, l2 := none, db := none }).result = .error .notFound ∧
    (getByID { l1 := none, l2 := some { val := .emptyStr, ttlMin := CACHE_NULL_TTL },
               db := some { id := 1, name := "a" } }).result = .error .unmarshal ∧
    ¬ (getByID { l1 := none, l2 := some { val := .emptyStr, ttlMin := CACHE_NULL_TTL },
                 db := some { id := 1, name := "a" } }).result = .error .notFound := by
  decide

/-- C9 (amended): in the mutex flow, when L1 and L2 miss and the
authoritative row is absent, `GetByID` reads the store, returns
not-found and writes nothing to L2 (no sentinel, no TTL); a read that
hits the empty string in L2 returns a deserialization error — not
not-found — without consulting the authoritative store. -/
theorem c9_mutex_flow_miss (st : ShopState) (h1 : st.l1 = none) :
    (st.l2 = none → st.db = none →
      getByID st = { result := .error .notFound, state := st, dbRead := true }) ∧
    (∀ t, st.l2 = some { val := .emptyStr, ttlMin := t } →
      getByID st = { result := .error .unmarshal, state := st, dbRead := false }) := by
  constructor
  · intro h2 hdb
    simp [getByID, getLocalShop, h1, h2, loadShopAndCache, hdb]
  · intro t h2
    simp [getByID, getLocalShop, h1, h2, unmarshalShop]

/-- Witness for C9 (amended) at concrete states. -/
theorem c9_mutex_flow_miss_witness :
    getByID { l1 := none, l2 := none, db := none } =
      { result := .error .notFound, state := { l1 := none, l2 := none, db := none },
        dbRead := true } ∧
    getByID { l1 := none, l2 := some { val := .emptyStr, ttlMin := 2 },
              db := some { id := 1, name := "a" } } =
      { result := .error .unmarshal,
        state := { l1 := none, l2 := some { val := .emptyStr, ttlMin := 2 },
                   db := some { id := 1, name := "a" } },
        dbRead := false } :=
  ⟨(c9_mutex_flow_miss { l1 := none, l2 := none, db := none } rfl).1 rfl rfl,
   (c9_mutex_flow_miss { l1 := none, l2 := some { val := .emptyStr, ttlMin := 2 },
                         db := some { id := 1, name := "a" } } rfl).2 2 rfl⟩

/-- C10: `GetByIDWithLogicalExpire` returns `(nil, nil)` without reading
the relational store whenever the L2 key is absent or holds the empty
string — even when the shop exists in the store — and the public
shop-by-id endpoint (`QueryShopByID`) is wired to exactly this read
path, answering 200 with null data. -/
theorem c10_logical_expire_miss (st : ShopState) (now : Int) :
    (st.l2 = none →
      getByIDWithLogicalExpire st now =
        { result := .ok none, state := st, dbRead := false } ∧
      queryShopByID st now = .okData none) ∧
    (∀ t, st.l2 = some { val := .emptyStr, ttlMin := t } →
      getByIDWithLogicalExpire st now =
        { result := .ok none, state := st, dbRead := false } ∧
      queryShopByID st now = .okData none) := by
  constructor
  · intro h2
    have hg : getByIDWithLogicalExpire st now =
        { result := .ok none, state := st, dbRead := false } := by
      simp [getByIDWithLogicalExpire, h2]
    exact ⟨hg, by simp [queryShopByID, hg]⟩
  · intro t h2
    have hg : getByIDWithLogicalExpire st now =
        { result := .ok none, state := st, dbRead := false } := by
      simp [getByIDWithLogicalExpire, h2]
    exact ⟨hg, by simp [queryShopByID, hg]⟩

/-- Witness for C10 at concrete states in which the shop exists in the
store. -/
theorem c10_logical_expire_miss_witness :
    (getByIDWithLogicalExpire
        { l1 := none, l2 := none, db := some { id := 1, name := "a" } } 5 =
      { result := .ok none,
        state := { l1 := none, l2 := none, db := some { id := 1, name := "a" } },
        dbRead := false } ∧
     queryShopByID { l1 := none, l2 := none, db := some { id := 1, name := "a" } } 5 =
       .okData none) ∧
    (getByIDWithLogicalExpire
        { l1 := none, l2 := some { val := .emptyStr, ttlMin := 0 },
          db := some { id := 1, name := "a" } } 5 =
      { result := .ok none,
        state := { l1 := none, l2 := some { val := .emptyStr, ttlMin := 0 },
                   db := some { id := 1, name := "a" } },
        dbRead := false } ∧
     queryShopByID { l1 := none, l2 := some { val := .emptyStr, ttlMin := 0 },
                     db := some { id := 1, name := "a" } } 5 = .okData none) :=
  ⟨(c10_logical_expire_miss
      { l1 := none, l2 := none, db := some { id := 1, name := "a" } } 5).1 rfl,
   (c10_logical_expire_miss
      { l1 := none, l2 := some { val := .emptyStr, ttlMin := 0 },
        db := some { id := 1, name := "a" } } 5).2 0 rfl⟩

end XzdpGo
